import Mathlib

/-
Shallow embedding of src/generate.py (marketing feed-to-creative pipeline)
and proofs about its behavior.  Python strings are modelled as Lean Strings,
XML elements as (tag, optional text) pairs, exceptions as Except values.
-/

set_option maxRecDepth 4000

/-! ## Python string primitives used by generate.py -/

/-- Whitespace set of Python str.split() / str.strip() (ASCII part; the
additional Unicode space characters are not exercised by the feed data). -/
def pyIsSpace (c : Char) : Bool :=
  c = ' ' || c = '\t' || c = '\n' || c = '\r' || c = '\x0b' || c = '\x0c'

/-- Python str.strip(): drop leading and trailing whitespace. -/
def pyStrip (s : String) : String :=
  ⟨((s.data.dropWhile pyIsSpace).reverse.dropWhile pyIsSpace).reverse⟩

/-- Python str.split() with no argument: split on whitespace runs, dropping
empty tokens (so a blank or whitespace-only string yields the empty list).
Implemented as a right fold that accumulates the word currently being built. -/
def pySplitList (cs : List Char) : List (List Char) :=
  let folded := cs.foldr
    (fun c acc =>
      if pyIsSpace c then
        if acc.2.isEmpty then (acc.1, ([] : List Char)) else (acc.2 :: acc.1, [])
      else (acc.1, c :: acc.2))
    ([], [])
  if folded.2.isEmpty then folded.1 else folded.2 :: folded.1

def pySplit (s : String) : List String :=
  (pySplitList s.data).map (fun w => ⟨w⟩)

/-- Python str.lower() restricted to ASCII plus the Estonian letters that
occur in ESTONIAN_MARKERS (the only non-ASCII case folding the script needs). -/
def pyLowerChar (c : Char) : Char :=
  if c = 'Ö' then 'ö'
  else if c = 'Ä' then 'ä'
  else if c = 'Ü' then 'ü'
  else if c = 'Õ' then 'õ'
  else c.toLower

def pyLower (s : String) : String := ⟨s.data.map pyLowerChar⟩

/-- Scan for an occurrence of sub as a contiguous run (helper for the
Python `in` operator on str); the empty pattern matches everywhere. -/
def listContainsSub (sub : List Char) : List Char → Bool
  | [] => sub.isEmpty
  | c :: rest => sub.isPrefixOf (c :: rest) || listContainsSub sub rest

/-- Python substring containment (the `in` operator on str). -/
def strContains (s sub : String) : Bool := listContainsSub sub.data s.data

/-- Python str.replace(pat, rep): left-to-right, non-overlapping replacement
of every occurrence.  Only called with a non-empty pattern in the source.
The fuel argument is a structural-recursion bound; every step consumes at
least one character, so fuel = length + 1 never runs out. -/
def replaceListF (pat rep : List Char) : Nat → List Char → List Char
  | 0, l => l
  | _ + 1, [] => []
  | fuel + 1, c :: rest =>
    if pat.isEmpty then c :: rest
    else if pat.isPrefixOf (c :: rest) then
      rep ++ replaceListF pat rep fuel ((c :: rest).drop pat.length)
    else
      c :: replaceListF pat rep fuel rest

def pyReplace (s pat rep : String) : String :=
  ⟨replaceListF pat.data rep.data (s.data.length + 1) s.data⟩

/-- Python last component of tag.split(sep): everything after the last
occurrence of the separator character. -/
def lastAfter (sep : Char) (cs : List Char) : List Char :=
  (cs.reverse.takeWhile (fun c => c ≠ sep)).reverse

/-- node.tag.split(brace)[-1] as used at generate.py:513 to strip the
XML-namespace prefix. -/
def localName (tag : String) : String := ⟨lastAfter '\x7d' tag.data⟩

/-! ## Decimal parsing and formatting (float(...) and format specs) -/

def digitsToNat (cs : List Char) : Nat :=
  cs.foldl (fun a c => a * 10 + (c.toNat - 48)) 0

/-- Python float(s) on plain decimal literals: optional sign, digits with an
optional fractional part (also the forms "5." and ".5").  The exponent,
underscore, inf and nan forms accepted by float() are not price-feed data and
are not modelled; every other input yields none, matching the ValueError
branch of format_price. -/
def pyFloat (s : String) : Option ℚ :=
  let cs := s.data
  let signed : Int × List Char :=
    match cs with
    | '+' :: r => (1, r)
    | '-' :: r => (-1, r)
    | _ => (1, cs)
  let sgn := signed.1
  let body := signed.2
  let ip := body.takeWhile Char.isDigit
  let rest := body.dropWhile Char.isDigit
  match rest with
  | [] => if ip.isEmpty then none else some (mkRat (sgn * (digitsToNat ip : Int)) 1)
  | '.' :: fp =>
    if fp.all Char.isDigit && (!ip.isEmpty || !fp.isEmpty) then
      some (mkRat (sgn * ((digitsToNat ip : Int) * 10 ^ fp.length + (digitsToNat fp : Int)))
              (10 ^ fp.length))
    else none
  | _ => none

def padTwo (n : Nat) : String := if n < 10 then "0" ++ toString n else toString n

/-- Round the fraction a / b (with b positive) to the nearest integer, ties
to even (Python float formatting uses round-half-even; feed prices have at
most two decimals so ties never occur). -/
def roundHalfEvenFrac (a b : Int) : Int :=
  let f := a.fdiv b
  let r2 := 2 * (a - f * b)
  if r2 < b then f
  else if b < r2 then f + 1
  else if f % 2 = 0 then f else f + 1

/-- Python format spec .2f on the exact rational value of the price. -/
def formatTwoDec (q : ℚ) : String :=
  let n := roundHalfEvenFrac (100 * q.num) (q.den : Int)
  let sign := if n < 0 then "-" else ""
  sign ++ toString (n.natAbs / 100) ++ "." ++ padTwo (n.natAbs % 100)

/-! ## Configuration constants (generate.py section 1) -/

def OUTPUT_DIR : String := "generated_ads"

def MAX_PRODUCTS_TO_GENERATE : Nat := 50

def TEMP_DOWNLOAD_DIR : String := "temp_xml_feeds"

structure CountryConfig where
  feed_url : String
  currency : String
  google_feed_required : Bool
  language_code : String
deriving DecidableEq, Repr

def EE_CONFIG : CountryConfig :=
  ⟨"https://backend.ballzy.eu/et/amfeed/feed/download?id=102&file=cropink_et.xml",
   "EUR", true, "et"⟩

def LV_CONFIG : CountryConfig :=
  ⟨"https://backend.ballzy.eu/lv/amfeed/feed/download?id=104&file=cropink_lv.xml",
   "EUR", true, "lv"⟩

def LT_CONFIG : CountryConfig :=
  ⟨"https://backend.ballzy.eu/lt/amfeed/feed/download?id=105&file=cropink_lt.xml",
   "EUR", true, "lt"⟩

def FI_CONFIG : CountryConfig :=
  ⟨"https://backend.ballzy.eu/fi/amfeed/feed/download?id=103&file=cropink_fi.xml",
   "EUR", false, "fi"⟩

def COUNTRY_CONFIGS : List (String × CountryConfig) :=
  [("EE", EE_CONFIG), ("LV", LV_CONFIG), ("LT", LT_CONFIG), ("FI", FI_CONFIG)]

def GITHUB_PAGES_BASE_URL : String :=
  "https://tanelneemoja.github.io/testing-somecool-stuff/generated_ads"

/-- The Google Shopping namespace; ElementTree renders a namespaced tag as
the URI between braces followed by the local name. -/
def GOOGLE_NS : String := "\x7bhttp://base.google.com/ns/1.0\x7d"

def gTag (name : String) : String := GOOGLE_NS ++ name

def NORMAL_PRICE_COLOR : String := "#0055FF"

def SALE_PRICE_COLOR : String := "#cc02d2"

structure Slot where
  x : Nat
  y : Nat
  w : Nat
  h : Nat
  center_y : ℚ
deriving DecidableEq, Repr

def LAYOUT_SLOTS : List Slot :=
  [⟨25, 25, 606, 700, (1 : ℚ) / 2⟩,
   ⟨656, 305, 522, 624, (3 : ℚ) / 5⟩,
   ⟨25, 823, 606, 350, (1 : ℚ) / 2⟩]

/-! ## XML data model -/

/-- One XML child element of an item node: its (possibly namespaced) tag and
its optional text content. -/
structure Element where
  tag : String
  text : Option String
deriving DecidableEq, Repr

/-- One feed item node: its child elements in document order. -/
structure Item where
  children : List Element
deriving DecidableEq, Repr

/-- ElementTree item.find(tag): first direct child with the given tag,
or None. -/
def Item.find (item : Item) (tag : String) : Option Element :=
  item.children.find? (fun n => n.tag == tag)

/-- ElementTree item.findall(tag): all direct children with the given tag,
in document order. -/
def Item.findall (item : Item) (tag : String) : List Element :=
  item.children.filter (fun n => n.tag == tag)

/-! ## Exceptions -/

inductive PyExn
  | indexError
  | valueError
deriving DecidableEq, Repr

instance exceptDecEq {ε α : Type} [DecidableEq ε] [DecidableEq α] :
    DecidableEq (Except ε α) := fun x y =>
  match x, y with
  | Except.ok a, Except.ok b =>
    if h : a = b then isTrue (by rw [h])
    else isFalse (by intro hc; injection hc; contradiction)
  | Except.error a, Except.error b =>
    if h : a = b then isTrue (by rw [h])
    else isFalse (by intro hc; injection hc; contradiction)
  | Except.ok _, Except.error _ => isFalse (by intro hc; injection hc)
  | Except.error _, Except.ok _ => isFalse (by intro hc; injection hc)

/-! ## Text cleaning (generate.py clean_text, lines 82-91) -/

/-- Named/numeric HTML entities decoded by html.unescape that this feed data
exercises; entries are stored without the leading ampersand. -/
def entityTable : List (List Char × List Char) :=
  [("hellip;".data, "…".data),
   ("nbsp;".data, " ".data),
   ("amp;".data, "&".data),
   ("lt;".data, "<".data),
   ("gt;".data, ">".data),
   ("quot;".data, "\"".data)]

/-- html.unescape modelled on the entity set above; unknown entities and
bare ampersands pass through unchanged, as in Python.  Fuel as in
replaceListF: every step consumes at least one character. -/
def unescapeListF : Nat → List Char → List Char
  | 0, l => l
  | _ + 1, [] => []
  | fuel + 1, c :: rest =>
    if c = '&' then
      match entityTable.find? (fun p => p.1.isPrefixOf rest) with
      | some p => p.2 ++ unescapeListF fuel (rest.drop p.1.length)
      | none => c :: unescapeListF fuel rest
    else c :: unescapeListF fuel rest

def htmlUnescape (s : String) : String := ⟨unescapeListF (s.data.length + 1) s.data⟩

/-- re.sub(tagPattern, blank, text) where the pattern is an opening angle
bracket, any run of characters other than a closing angle bracket, then a
closing angle bracket: each match runs from a bracket to the first closing
bracket after it; an opening bracket with no later closing bracket starts no
match (and then no later position can match either). -/
def stripTagsListF : Nat → List Char → List Char
  | 0, l => l
  | _ + 1, [] => []
  | fuel + 1, c :: rest =>
    if c = '<' then
      match rest.findIdx? (fun d => d = '>') with
      | some i => stripTagsListF fuel (rest.drop (i + 1))
      | none => c :: rest
    else c :: stripTagsListF fuel rest

/-- generate.py clean_text: decode entities, strip markup, remove the one
boilerplate phrase, trim whitespace; falsy input (None or blank) yields the
blank string. -/
def clean_text (text : Option String) : String :=
  match text with
  | none => ""
  | some s =>
    if s = "" then ""
    else
      let unescaped := htmlUnescape s
      let stripped : String := ⟨stripTagsListF (unescaped.data.length + 1) unescaped.data⟩
      pyStrip (pyReplace stripped "Vaata lähemalt ballzy.eu." "")

/-! ## Price formatting (generate.py format_price, lines 486-494) -/

/-- format_price: blank for a missing element or missing text; otherwise the
first whitespace token of the text is parsed as a float.  An integral value
renders without decimals, any other as two decimals, with the currency
symbol appended; a non-numeric token falls back to replacing the substring
" EUR" inside that token with the euro sign.  A blank or whitespace-only
text makes the subscript on the empty split result raise IndexError. -/
def format_price (config : CountryConfig) (element : Option Element) : Except PyExn String :=
  match element with
  | none => Except.ok ""
  | some e =>
    match e.text with
    | none => Except.ok ""
    | some t =>
      match pySplit t with
      | [] => Except.error PyExn.indexError
      | raw_price_str :: _ =>
        match pyFloat raw_price_str with
        | some price_value =>
          let currency_symbol := pyReplace config.currency "EUR" "€"
          if price_value.den = 1 then
            Except.ok (toString price_value.num ++ currency_symbol)
          else
            Except.ok (formatTwoDec price_value ++ currency_symbol)
        | none => Except.ok (pyReplace raw_price_str " EUR" "€")

/-! ## Product extraction and filtering (generate.py process_single_feed loop) -/

/-- Category lookup chain, generate.py lines 441-450: the namespaced
google_product_category tag, then the namespaced category tag, then the
bare google_product_category tag; first hit wins. -/
def category_lookup (item : Item) : Option Element :=
  match item.find (gTag "google_product_category") with
  | some e => some e
  | none =>
    match item.find (gTag "category") with
    | some e => some e
    | none => item.find "google_product_category"

/-- Lines 452-457: the stripped, lowered category text must contain
"street shoes" or "boots". -/
def is_correct_category (item : Item) : Bool :=
  match category_lookup item with
  | some ce =>
    match ce.text with
    | some t =>
      let category_text := pyLower (pyStrip t)
      strContains category_text "street shoes" || strContains category_text "boots"
    | none => false
  | none => false

/-- Lines 460-466: the bare custom_label_0 tag, stripped and lowered, must
equal "lifestyle". -/
def is_lifestyle (item : Item) : Bool :=
  match item.find "custom_label_0" with
  | some le =>
    match le.text with
    | some t => pyLower (pyStrip t) == "lifestyle"
    | none => false
  | none => false

/-- Lines 500-502: the primary image link, if its text is truthy, stripped. -/
def main_image_url (item : Item) : List String :=
  match item.find (gTag "image_link") with
  | some e =>
    match e.text with
    | some t => if t = "" then [] else [pyStrip t]
    | none => []
  | none => []

/-- Lines 504-506: among the first two additional-image elements (by index
over all of them), those whose text is truthy, stripped, in order. -/
def additional_image_urls (item : Item) : List String :=
  ((item.findall (gTag "additional_image_link")).take 2).filterMap (fun e =>
    match e.text with
    | some t => if t = "" then none else some (pyStrip t)
    | none => none)

/-- Lines 499-508: the primary image link then the qualifying additional
links. -/
def extract_image_urls (item : Item) : List String :=
  main_image_url item ++ additional_image_urls item

/-- Line 513: tag_name with the namespace prefix removed. -/
def tag_local (n : Element) : String := localName n.tag

/-- Lines 516-517: the in-place text cleaning applied to description, title
and link nodes before the record is stored. -/
def clean_node (n : Element) : Element :=
  if tag_local n == "description" || tag_local n == "title" || tag_local n == "link" then
    { n with text := some (clean_text n.text) }
  else n

/-- Python dict insertion: a repeated key keeps its first position but takes
the latest value (used for item_elements at line 514). -/
def insertReplace : List (String × Element) → String → Element → List (String × Element)
  | [], k, v => [(k, v)]
  | (k1, v1) :: rest, k, v =>
    if k1 == k then (k1, v) :: rest else (k1, v1) :: insertReplace rest k v

def build_item_elements (nodes : List Element) : List (String × Element) :=
  nodes.foldl (fun acc n => insertReplace acc (tag_local n) n) []

/-- The record appended to products_for_feed (lines 519-526), together with
the three arguments that the same loop iteration passes to create_ballzy_ad
(line 530): the displayed price text, its color, and image_urls[:3]. -/
structure ProductRecord where
  id : String
  price_state : String
  formatted_price : String
  formatted_sale_price : String
  item_elements : List (String × Element)
  nodes : List Element
  displayed_price : String
  price_color : String
  image_urls_for_ad : List String
deriving DecidableEq, Repr, Inhabited

/-- Continuation of the loop body after the display-price element, color and
state have been selected (lines 486-531): format the display price (which
can raise), extract image URLs and skip the item if there are none, clean
the text nodes in place, then build the stored record. -/
def process_feed_item_rest (config : CountryConfig) (item : Item) (product_id : String)
    (price_element sale_price_element : Option Element)
    (display_price_element : Element) (final_price_color price_state : String) :
    Except PyExn (Option ProductRecord) :=
  match format_price config (some display_price_element) with
  | Except.error e => Except.error e
  | Except.ok formatted_display_price =>
    let image_urls := extract_image_urls item
    if image_urls.isEmpty then Except.ok none
    else
      let cleaned := item.children.map clean_node
      match format_price config price_element with
      | Except.error e => Except.error e
      | Except.ok fp =>
        match format_price config sale_price_element with
        | Except.error e => Except.error e
        | Except.ok fsp =>
          Except.ok (some
            { id := product_id
              price_state := price_state
              formatted_price := fp
              formatted_sale_price := fsp
              item_elements := build_item_elements cleaned
              nodes := cleaned
              displayed_price := formatted_display_price
              price_color := final_price_color
              image_urls_for_ad := image_urls.take 3 })

/-- One iteration of the item loop in process_single_feed (lines 429-531):
skip when the namespaced id is missing or has no text, apply the category
and label filters, pick the display price element by presence (sale_price
first), and hand off to the continuation.  ok none models `continue`,
error models an uncaught exception escaping the loop. -/
def process_feed_item (config : CountryConfig) (item : Item) :
    Except PyExn (Option ProductRecord) :=
  match item.find (gTag "id") with
  | none => Except.ok none
  | some product_id_element =>
    match product_id_element.text with
    | none => Except.ok none
    | some idText =>
      let product_id := pyStrip idText
      if !is_correct_category item || !is_lifestyle item then Except.ok none
      else
        match item.find (gTag "sale_price") with
        | some se =>
          process_feed_item_rest config item product_id
            (item.find (gTag "price")) (some se) se SALE_PRICE_COLOR "sale"
        | none =>
          match item.find (gTag "price") with
          | some pe =>
            process_feed_item_rest config item product_id
              (some pe) none pe NORMAL_PRICE_COLOR "normal"
          | none => Except.ok none

/-- The item that an iteration accepts, if any. -/
def accepted_record (config : CountryConfig) (item : Item) : Option ProductRecord :=
  match process_feed_item config item with
  | Except.ok (some r) => some r
  | _ => none

/-- The full item loop of process_single_feed: iterate in document order,
breaking once product_count reaches MAX_PRODUCTS_TO_GENERATE; the counter
advances only when a record is appended. -/
def process_items (config : CountryConfig) : List Item → Nat → Except PyExn (List ProductRecord)
  | [], _ => Except.ok []
  | item :: rest, product_count =>
    if MAX_PRODUCTS_TO_GENERATE ≤ product_count then Except.ok []
    else
      match process_feed_item config item with
      | Except.error e => Except.error e
      | Except.ok none => process_items config rest product_count
      | Except.ok (some r) =>
        match process_items config rest (product_count + 1) with
        | Except.error e => Except.error e
        | Except.ok rs => Except.ok (r :: rs)

/-! ## Creative compositor (generate.py create_ballzy_ad, lines 110-161) -/

/-- The URLs that create_ballzy_ad retrieves: the slot loop (lines 118-122)
walks the configured slots in order, skips slots whose index is beyond the
URL list, and fetches image_urls[i] for the rest, so exactly the first
min(#slots, #urls) URLs are requested. -/
def create_ballzy_ad_fetch_urls (image_urls : List String) : List String :=
  LAYOUT_SLOTS.enum.filterMap (fun p => image_urls.get? p.1)

/-- Output filename for a record id (lines 159, 281, 333, 388). -/
def ad_filename (product_id : String) : String := "ad_" ++ product_id ++ ".jpg"

/-! ## Meta feed emitter (generate.py generate_meta_feed, lines 256-288) -/

/-- The replacement image-link node: the configured base URL joined with the
deterministic output filename (lines 281-282). -/
def meta_image_link_node (product : ProductRecord) : Element :=
  ⟨gTag "image_link", some (GITHUB_PAGES_BASE_URL ++ "/" ++ ad_filename product.id)⟩

/-- The children of one emitted Meta-feed item: every stored node except
those tagged as the namespaced image_link (lines 275-278), then the single
new image-link node appended at the end (line 282). -/
def generate_meta_feed_item (product : ProductRecord) : List Element :=
  (product.nodes.filter (fun node => node.tag != gTag "image_link")) ++
    [meta_image_link_node product]

def generate_meta_feed (products : List ProductRecord) : List (List Element) :=
  products.map generate_meta_feed_item

/-! ## Feed download and orchestration (generate.py lines 93-108, 548-575) -/

/-- What the network run returns for one market: a body, or a
requests.RequestException raised during the GET or raise_for_status. -/
inductive FetchOutcome
  | success (content : String)
  | requestException (message : String)
deriving DecidableEq, Repr

/-- download_feed_xml: on success the body is written under the temp
directory and its path returned; the except clause catches the request
exception and returns None instead of letting it propagate (lines 100-108). -/
def download_feed_xml (country_code : String) (outcome : FetchOutcome) : Option String :=
  match outcome with
  | FetchOutcome.success _ =>
    some (TEMP_DOWNLOAD_DIR ++ "/" ++ pyLower country_code ++ "_feed.xml")
  | FetchOutcome.requestException _ => none

/-- Step 1 of process_all_feeds: the codes whose download returned a path
(the keys of downloaded_files), in configuration order. -/
def downloaded_codes (markets : List (String × FetchOutcome)) : List String :=
  markets.filterMap (fun m => (download_feed_xml m.1 m.2).map (fun _ => m.1))

/-- Step 3 of process_all_feeds: the codes for which process_single_feed is
invoked — exactly those configured codes present in downloaded_files; the
others are skipped with a message and produce no output files. -/
def processed_codes (markets : List (String × FetchOutcome)) : List String :=
  (markets.filter (fun m => (downloaded_codes markets).contains m.1)).map (fun m => m.1)

/-! ## Estonian contamination report (generate.py lines 167-251) -/

def ESTONIAN_MARKERS : List String :=
  ["ö", "ä", "ü", "õ", "eesti", "saadaval", "vaata", "pood", "ning", "kohe"]

/-- The dictionary appended for one contaminated product (lines 216-221). -/
structure ContaminationRow where
  ID : String
  Title : String
  Description : String
  Link : String
deriving DecidableEq, Repr

/-- The scan of one item (lines 197-221).  Note that find is called for
"g:title" and "g:link" without a namespace map, so ElementTree looks for
children whose tag is literally that string; only the description lookup
uses the namespace. -/
def contamination_row (item : Item) : Option ContaminationRow :=
  let product_id :=
    match item.find (gTag "id") with
    | some e => match e.text with
      | some t => if t = "" then "N/A" else t
      | none => "N/A"
    | none => "N/A"
  let title_text :=
    match item.find "g:title" with
    | some e => match e.text with
      | some t => if t = "" then "" else pyStrip t
      | none => ""
    | none => ""
  let description_text :=
    match item.find (gTag "description") with
    | some e => match e.text with
      | some t => if t = "" then "" else pyStrip t
      | none => ""
    | none => ""
  let link_text :=
    match item.find "g:link" with
    | some e => match e.text with
      | some t => if t = "" then "" else pyStrip t
      | none => ""
    | none => ""
  let full_text := pyLower (title_text ++ " " ++ description_text)
  if ESTONIAN_MARKERS.any (fun marker => strContains full_text marker) then
    some ⟨product_id, title_text, pyReplace description_text "\n" " ", link_text⟩
  else
    none

def contaminated_products (items : List Item) : List ContaminationRow :=
  items.filterMap contamination_row

def ContaminationRow.toAssoc (r : ContaminationRow) : List (String × String) :=
  [("ID", r.ID), ("Title", r.Title), ("Description", r.Description), ("Link", r.Link)]

def lookupAssoc (row : List (String × String)) (key : String) : Option String :=
  (row.find? (fun kv => kv.1 == key)).map (fun kv => kv.2)

/-- csv.DictWriter.writerow: a key outside fieldnames raises ValueError;
otherwise one cell per field name, blank when the key is absent. -/
def dict_writer_row (fieldnames : List String) (row : List (String × String)) :
    Except PyExn (List String) :=
  if row.any (fun kv => !(fieldnames.contains kv.1)) then Except.error PyExn.valueError
  else Except.ok (fieldnames.map (fun f => (lookupAssoc row f).getD ""))

/-- csv.DictWriter.writerows: rows are written one at a time; a failing row
aborts with the rows before it already on disk. -/
def dict_writer_rows (fieldnames : List String) :
    List (List (String × String)) → List (List String) × Option PyExn
  | [] => ([], none)
  | row :: rest =>
    match dict_writer_row fieldnames row with
    | Except.error e => ([], some e)
    | Except.ok line =>
      let written := dict_writer_rows fieldnames rest
      (line :: written.1, written.2)

/-- The on-disk lines of the report file after one with-open block, plus the
exception the block raised, if any. -/
structure ReportOutcome where
  csv_lines : List (List String)
  raised : Option PyExn
deriving DecidableEq, Repr

/-- One with-open block in mode w: truncate, write the header row, then the
contaminated rows (none when the list is empty). -/
def write_report_block (fieldnames : List String) (rows : List (List (String × String))) :
    ReportOutcome :=
  let written := dict_writer_rows fieldnames rows
  ⟨fieldnames :: written.1, written.2⟩

/-- create_estonian_contamination_report on an already-parsed item list.
The function contains two successive with-open blocks on the same path.
The first (line 224 — written two spaces deep; it is modelled here at the
four-space indentation its enclosing function body requires, see the
indentation model below) uses the four fieldnames ID, Title, Description,
Link.  The second (line 240) reopens the file in mode w, truncating it, and
uses the three fieldnames ID, Title, Description_Snippet, so it overwrites
whatever the first block wrote; with a non-empty row list its DictWriter
raises ValueError because the row dicts carry the keys Description and Link. -/
def create_estonian_contamination_report (items : List Item) : ReportOutcome :=
  let rows := (contaminated_products items).map ContaminationRow.toAssoc
  let first := write_report_block ["ID", "Title", "Description", "Link"] rows
  match first.raised with
  | some _ => first
  | none => write_report_block ["ID", "Title", "Description_Snippet"] rows

/-! ## Indentation model for generate.py (claim C3) -/

/-- Dedent handling of the Python tokenizer: pop indentation levels until
the new indent matches one already on the stack; a value between two stack
levels has no match and is an IndentationError. -/
def pop_to (i : Nat) : List Nat → Option (List Nat)
  | [] => none
  | top :: rest =>
    if i = top then some (top :: rest)
    else if i < top then pop_to i rest
    else none

/-- A permissive model of the tokenizer indentation automaton: any increase
opens a block, an exact match continues it, a dedent must return to a level
on the stack.  Python accepts strictly fewer programs (an INDENT is legal
only after a block header), so a sequence this automaton rejects is a
Python IndentationError. -/
def indent_steps : List Nat → List Nat → Bool
  | _, [] => true
  | stack, i :: rest =>
    match stack with
    | [] => false
    | top :: _ =>
      if top < i then indent_steps (i :: stack) rest
      else
        match pop_to i stack with
        | some stack2 => indent_steps stack2 rest
        | none => false

def indent_consistent (lines : List Nat) : Bool := indent_steps [0] lines

/-- Leading-space counts of the logical statement lines of
create_estonian_contamination_report (generate.py lines 167-251), in order:
def 167, docstring 168, lines 175-177, 179, 182, 184-189, 192, 193, 195,
197, 199-216, then the first with-block 224-238, then the second with-block
240-251.  Blank and comment-only lines are ignored by the tokenizer and are
omitted; continuation lines inside brackets do not generate indentation
tokens.  Line 224 contributes the entry 2. -/
def contamination_report_indents : List Nat :=
  [0, 4,
   4, 8, 8,
   4, 4,
   4, 8, 8, 4, 8, 8,
   4, 4, 4,
   4, 8, 8, 8, 8, 8, 8, 8, 8, 8, 8, 12,
   2, 8, 8, 8, 8, 12, 12, 8, 12,
   4, 8, 8, 8, 8, 12, 12, 8, 12]

/-- The same sequence with line 224 at the four-space indentation that its
body (lines 228-238, at eight spaces) and the duplicate block at line 240
show to be intended. -/
def contamination_report_indents_intended : List Nat :=
  [0, 4,
   4, 8, 8,
   4, 4,
   4, 8, 8, 4, 8, 8,
   4, 4, 4,
   4, 8, 8, 8, 8, 8, 8, 8, 8, 8, 8, 12,
   4, 8, 8, 8, 8, 12, 12, 8, 12,
   4, 8, 8, 8, 8, 12, 12, 8, 12]

/-! ## Sample feed data used as concrete witnesses -/

/-- An item that passes every filter, with both prices and four image URLs. -/
def sampleSaleItem : Item := ⟨[
  ⟨gTag "id", some "123"⟩,
  ⟨gTag "title", some "Nike Air"⟩,
  ⟨gTag "google_product_category", some "Apparel > Street Shoes"⟩,
  ⟨"custom_label_0", some "Lifestyle"⟩,
  ⟨gTag "price", some "20.00 EUR"⟩,
  ⟨gTag "sale_price", some "12.50 EUR"⟩,
  ⟨gTag "image_link", some "https://img.example/1.jpg"⟩,
  ⟨gTag "additional_image_link", some "https://img.example/2.jpg"⟩,
  ⟨gTag "additional_image_link", some "https://img.example/3.jpg"⟩,
  ⟨gTag "additional_image_link", some "https://img.example/4.jpg"⟩]⟩

def sampleNoIdItem : Item := ⟨[⟨gTag "title", some "no id"⟩]⟩

def sampleSaleRecord : ProductRecord :=
  match process_feed_item EE_CONFIG sampleSaleItem with
  | Except.ok (some r) => r
  | _ => default

/-- An item whose sale_price element exists but carries no text. -/
def sampleNoneSaleItem : Item := ⟨[
  ⟨gTag "id", some "77"⟩,
  ⟨gTag "google_product_category", some "Winter Boots"⟩,
  ⟨"custom_label_0", some " LIFESTYLE "⟩,
  ⟨gTag "price", some "30.00 EUR"⟩,
  ⟨gTag "sale_price", none⟩,
  ⟨gTag "image_link", some "https://img.example/77.jpg"⟩]⟩

def sampleNoneSaleRecord : ProductRecord :=
  match process_feed_item EE_CONFIG sampleNoneSaleItem with
  | Except.ok (some r) => r
  | _ => default

/-- An item whose display price text is whitespace-only. -/
def sampleBlankPriceItem : Item := ⟨[
  ⟨gTag "id", some "88"⟩,
  ⟨gTag "google_product_category", some "boots"⟩,
  ⟨"custom_label_0", some "lifestyle"⟩,
  ⟨gTag "sale_price", some "   "⟩,
  ⟨gTag "image_link", some "https://img.example/88.jpg"⟩]⟩

/-- An item the contamination scan flags (markers in its description). -/
def sampleContaminatedItem : Item :=
  ⟨[⟨gTag "id", some "99"⟩, ⟨gTag "description", some "saadaval kohe"⟩]⟩

/-! ## Claim theorems -/

/-- C1: the claim says the contamination scan always leaves the report CSV
with the fixed four-column header ID, Title, Description, Link, even when
empty.  The code does not: a duplicated second with-open block reopens the
same file in mode w with the three fieldnames ID, Title, Description_Snippet,
so on a parseable feed with no matches the final file has the three-column
header, and with at least one match the second block's DictWriter raises
ValueError.  This theorem evaluates the model at both failing inputs. -/
theorem c1_contamination_report_header_bug :
    (create_estonian_contamination_report []).csv_lines =
      [["ID", "Title", "Description_Snippet"]] ∧
    (create_estonian_contamination_report []).raised = none ∧
    ([["ID", "Title", "Description_Snippet"]] : List (List String)) ≠
      [["ID", "Title", "Description", "Link"]] ∧
    (create_estonian_contamination_report [sampleContaminatedItem]).raised =
      some PyExn.valueError := by
  decide

/-- C2 counterexample: the claim says the non-numeric input "N/A EUR"
formats to "N/A€", but format_price applies the literal " EUR" → "€"
substitution to the first whitespace-split token "N/A", which contains no
" EUR", so the result is "N/A" without a currency symbol. -/
theorem c2_price_format_counterexample :
    format_price EE_CONFIG (some ⟨gTag "price", some "N/A EUR"⟩) = Except.ok "N/A" ∧
    (Except.ok "N/A" : Except PyExn String) ≠ Except.ok "N/A€" := by
  decide

/-- C2 amended: "12.00 EUR" formats to "12€" and "12.50 EUR" to "12.50€" as
claimed; the non-numeric "N/A EUR" formats to "N/A" (the fallback suffix
substitution never fires because splitting already removed " EUR"). -/
theorem c2_price_format_examples :
    format_price EE_CONFIG (some ⟨gTag "price", some "12.00 EUR"⟩) = Except.ok "12€" ∧
    format_price EE_CONFIG (some ⟨gTag "price", some "12.50 EUR"⟩) = Except.ok "12.50€" ∧
    format_price EE_CONFIG (some ⟨gTag "price", some "N/A EUR"⟩) = Except.ok "N/A" := by
  decide

/-- C3: the claim says src/generate.py is syntactically valid Python with
the with-open statement at line 224 consistently indented.  The statement
is indented two spaces inside a four-space function body whose indentation
stack at that point is 0/4/8/12, so the tokenizer has no level to dedent to
and the module raises IndentationError before any code can run.  The model
automaton accepts every indentation sequence Python accepts, so its
rejection of the real sequence proves the file invalid; the same sequence
with line 224 at four spaces is accepted. -/
theorem c3_indentation_error :
    indent_consistent contamination_report_indents = false ∧
    indent_consistent contamination_report_indents_intended = true := by
  decide

/-! ## Helper lemmas about the processing pipeline -/

theorem process_feed_item_rest_ok_some
    {config : CountryConfig} {item : Item} {product_id : String}
    {price_element sale_price_element : Option Element} {display_price_element : Element}
    {final_price_color price_state : String} {r : ProductRecord}
    (h : process_feed_item_rest config item product_id price_element sale_price_element
          display_price_element final_price_color price_state = Except.ok (some r)) :
    extract_image_urls item ≠ [] ∧
    r.id = product_id ∧
    r.price_state = price_state ∧
    r.price_color = final_price_color ∧
    r.image_urls_for_ad = (extract_image_urls item).take 3 ∧
    format_price config (some display_price_element) = Except.ok r.displayed_price ∧
    format_price config sale_price_element = Except.ok r.formatted_sale_price ∧
    format_price config price_element = Except.ok r.formatted_price := by
  simp only [process_feed_item_rest] at h
  cases hfd : format_price config (some display_price_element) with
  | error e =>
    simp only [hfd] at h
    exact absurd h (by simp)
  | ok formatted_display_price =>
    simp only [hfd] at h
    by_cases himg : (extract_image_urls item).isEmpty = true
    · rw [if_pos himg] at h
      exact absurd h (by simp)
    · rw [if_neg himg] at h
      cases hfp : format_price config price_element with
      | error e =>
        simp only [hfp] at h
        exact absurd h (by simp)
      | ok fp =>
        simp only [hfp] at h
        cases hfsp : format_price config sale_price_element with
        | error e =>
          simp only [hfsp] at h
          exact absurd h (by simp)
        | ok fsp =>
          simp only [hfsp, Except.ok.injEq, Option.some.injEq] at h
          subst h
          refine ⟨?_, rfl, rfl, rfl, rfl, rfl, rfl, rfl⟩
          simpa [List.isEmpty_iff] using himg

theorem process_feed_item_ok_some
    {config : CountryConfig} {item : Item} {r : ProductRecord}
    (h : process_feed_item config item = Except.ok (some r)) :
    (∃ e t, item.find (gTag "id") = some e ∧ e.text = some t ∧ r.id = pyStrip t) ∧
    is_correct_category item = true ∧
    is_lifestyle item = true ∧
    ((∃ se, item.find (gTag "sale_price") = some se ∧
        process_feed_item_rest config item r.id (item.find (gTag "price")) (some se) se
          SALE_PRICE_COLOR "sale" = Except.ok (some r)) ∨
     (item.find (gTag "sale_price") = none ∧
      ∃ pe, item.find (gTag "price") = some pe ∧
        process_feed_item_rest config item r.id (some pe) none pe
          NORMAL_PRICE_COLOR "normal" = Except.ok (some r))) := by
  simp only [process_feed_item] at h
  cases hid : item.find (gTag "id") with
  | none =>
    simp only [hid] at h
    exact absurd h (by simp)
  | some idElem =>
    simp only [hid] at h
    cases htext : idElem.text with
    | none =>
      simp only [htext] at h
      exact absurd h (by simp)
    | some idText =>
      simp only [htext] at h
      by_cases hfil : (!is_correct_category item || !is_lifestyle item) = true
      · rw [if_pos hfil] at h
        exact absurd h (by simp)
      · rw [if_neg hfil] at h
        have hfil2 : is_correct_category item = true ∧ is_lifestyle item = true := by
          constructor <;> revert hfil <;>
            cases is_correct_category item <;> cases is_lifestyle item <;> simp
        cases hsale : item.find (gTag "sale_price") with
        | some se =>
          simp only [hsale] at h
          have hid' : r.id = pyStrip idText := (process_feed_item_rest_ok_some h).2.1
          rw [← hid'] at h
          exact ⟨⟨idElem, idText, rfl, htext, hid'⟩, hfil2.1, hfil2.2, Or.inl ⟨se, rfl, h⟩⟩
        | none =>
          simp only [hsale] at h
          cases hpe : item.find (gTag "price") with
          | none =>
            simp only [hpe] at h
            exact absurd h (by simp)
          | some pe =>
            simp only [hpe] at h
            have hid' : r.id = pyStrip idText := (process_feed_item_rest_ok_some h).2.1
            rw [← hid'] at h
            exact ⟨⟨idElem, idText, rfl, htext, hid'⟩, hfil2.1, hfil2.2,
              Or.inr ⟨rfl, pe, rfl, h⟩⟩

/-- C4: for every accepted item with both price and sale_price elements
present, the displayed price equals the formatted sale_price, the record is
in state "sale", and the color handed to the compositor matches the state:
the sale purple constant for "sale", the normal blue constant for
"normal". -/
theorem c4_sale_display_and_color :
    ∀ (config : CountryConfig) (item : Item) (r : ProductRecord),
      process_feed_item config item = Except.ok (some r) →
      (((item.find (gTag "price")).isSome → (item.find (gTag "sale_price")).isSome →
        r.displayed_price = r.formatted_sale_price ∧ r.price_state = "sale" ∧
        r.price_color = SALE_PRICE_COLOR) ∧
       (r.price_state = "sale" → r.price_color = SALE_PRICE_COLOR) ∧
       (r.price_state = "normal" → r.price_color = NORMAL_PRICE_COLOR)) := by
  intro config item r h
  rcases process_feed_item_ok_some h with ⟨_, _, _, hcase⟩
  rcases hcase with ⟨se, hse, hrest⟩ | ⟨hse, pe, hpe, hrest⟩
  · rcases process_feed_item_rest_ok_some hrest with ⟨_, _, hstate, hcolor, _, hfd, hfsp, _⟩
    refine ⟨fun _ _ => ⟨Except.ok.inj (hfd.symm.trans hfsp), hstate, hcolor⟩,
            fun _ => hcolor, fun hn => ?_⟩
    exact absurd (hstate.symm.trans hn) (by decide)
  · rcases process_feed_item_rest_ok_some hrest with ⟨_, _, hstate, hcolor, _, _, _, _⟩
    refine ⟨fun _ hss => ?_, fun hs => ?_, fun _ => hcolor⟩
    · rw [hse] at hss
      exact absurd hss (by simp)
    · exact absurd (hstate.symm.trans hs) (by decide)

/-- C5: a ProductRecord is produced for an item only if the namespaced id
element is present with text, at least one of the price or sale_price
elements is present, at least one image URL is extracted, the category
predicate (case-insensitive containment of "street shoes" or "boots")
holds, and the label predicate (custom_label_0 equal to "lifestyle"
case-insensitively) holds; in particular an item without an id element is
always skipped. -/
theorem c5_record_invariants :
    (∀ (config : CountryConfig) (item : Item) (r : ProductRecord),
      process_feed_item config item = Except.ok (some r) →
      (∃ e t, item.find (gTag "id") = some e ∧ e.text = some t) ∧
      ((item.find (gTag "sale_price")).isSome ∨ (item.find (gTag "price")).isSome) ∧
      extract_image_urls item ≠ [] ∧
      is_correct_category item = true ∧
      is_lifestyle item = true) ∧
    (∀ (config : CountryConfig) (item : Item),
      item.find (gTag "id") = none → process_feed_item config item = Except.ok none) := by
  constructor
  · intro config item r h
    rcases process_feed_item_ok_some h with ⟨⟨e, t, he, ht, _⟩, hcat, hlife, hcase⟩
    refine ⟨⟨e, t, he, ht⟩, ?_, ?_, hcat, hlife⟩
    · rcases hcase with ⟨se, hse, _⟩ | ⟨_, pe, hpe, _⟩
      · exact Or.inl (by simp [hse])
      · exact Or.inr (by simp [hpe])
    · rcases hcase with ⟨_, _, hrest⟩ | ⟨_, _, _, hrest⟩
      · exact (process_feed_item_rest_ok_some hrest).1
      · exact (process_feed_item_rest_ok_some hrest).1
  · intro config item hid
    simp [process_feed_item, hid]

theorem process_items_ok_eq (config : CountryConfig) :
    ∀ (items : List Item) (k : Nat) (records : List ProductRecord),
      process_items config items k = Except.ok records →
      records = (items.filterMap (accepted_record config)).take
        (MAX_PRODUCTS_TO_GENERATE - k) := by
  intro items
  induction items with
  | nil =>
    intro k records h
    simp only [process_items, Except.ok.injEq] at h
    subst h
    simp
  | cons item rest ih =>
    intro k records h
    simp only [process_items] at h
    by_cases hk : MAX_PRODUCTS_TO_GENERATE ≤ k
    · rw [if_pos hk] at h
      simp only [Except.ok.injEq] at h
      subst h
      have h0 : MAX_PRODUCTS_TO_GENERATE - k = 0 := by omega
      simp [h0]
    · rw [if_neg hk] at h
      cases hpi : process_feed_item config item with
      | error e =>
        simp only [hpi] at h
        exact absurd h (by simp)
      | ok orec =>
        cases orec with
        | none =>
          simp only [hpi] at h
          have hacc : accepted_record config item = none := by
            simp [accepted_record, hpi]
          rw [List.filterMap_cons, hacc]
          exact ih k records h
        | some r =>
          simp only [hpi] at h
          cases hrec : process_items config rest (k + 1) with
          | error e =>
            simp only [hrec] at h
            exact absurd h (by simp)
          | ok rs =>
            simp only [hrec, Except.ok.injEq] at h
            subst h
            have hacc : accepted_record config item = some r := by
              simp [accepted_record, hpi]
            rw [List.filterMap_cons, hacc]
            have hsucc : MAX_PRODUCTS_TO_GENERATE - k =
                (MAX_PRODUCTS_TO_GENERATE - (k + 1)) + 1 := by omega
            rw [hsucc, List.take_succ_cons]
            rw [ih (k + 1) rs hrec]

/-- C6: the item loop accepts at most MAX_PRODUCTS_TO_GENERATE records per
market; the cap counts only accepted records (the result is exactly the
first MAX_PRODUCTS_TO_GENERATE elements of the filtered sequence, so
rejected items never consume the cap) and accepted records keep the input
document order. -/
theorem c6_cap_counts_accepted_in_order :
    ∀ (config : CountryConfig) (items : List Item) (records : List ProductRecord),
      process_items config items 0 = Except.ok records →
      records = (items.filterMap (accepted_record config)).take MAX_PRODUCTS_TO_GENERATE ∧
      records.length ≤ MAX_PRODUCTS_TO_GENERATE := by
  intro config items records h
  have heq := process_items_ok_eq config items 0 records h
  simp only [Nat.sub_zero] at heq
  refine ⟨heq, ?_⟩
  rw [heq, List.length_take]
  exact Nat.min_le_left _ _

theorem create_ballzy_ad_fetch_urls_eq_take (image_urls : List String) :
    create_ballzy_ad_fetch_urls image_urls = image_urls.take 3 := by
  rcases image_urls with _ | ⟨a, _ | ⟨b, _ | ⟨c, t⟩⟩⟩ <;> rfl

theorem length_filterMap_le {α β : Type} (f : α → Option β) (l : List α) :
    (l.filterMap f).length ≤ l.length := by
  induction l with
  | nil => simp
  | cons a t ih =>
    cases hf : f a with
    | none => rw [List.filterMap_cons, hf]; exact Nat.le_succ_of_le ih
    | some b => rw [List.filterMap_cons, hf]; simpa using ih

theorem extract_image_urls_length_le (item : Item) :
    (extract_image_urls item).length ≤ 3 := by
  have h1 : (main_image_url item).length ≤ 1 := by
    unfold main_image_url
    cases item.find (gTag "image_link") with
    | none => simp
    | some e =>
      cases hte : e.text with
      | none => simp [hte]
      | some t => by_cases ht : t = "" <;> simp [hte, ht]
  have h2 : (additional_image_urls item).length ≤ 2 := by
    unfold additional_image_urls
    have ha := length_filterMap_le
      (fun e : Element =>
        match e.text with
        | some t => if t = "" then none else some (pyStrip t)
        | none => none)
      ((item.findall (gTag "additional_image_link")).take 2)
    have hb : ((item.findall (gTag "additional_image_link")).take 2).length ≤ 2 := by
      rw [List.length_take]
      exact Nat.min_le_left _ _
    omega
  unfold extract_image_urls
  rw [List.length_append]
  omega

/-- C7: the compositor renders at most as many source photos as there are
configured slots: the fetched URLs are exactly the first three of the given
list, so with four URLs the fourth is never requested; and extraction takes
the primary link plus at most two additional links, so every accepted
record carries between one and three image URLs. -/
theorem c7_three_slot_render_bound :
    (∀ image_urls, create_ballzy_ad_fetch_urls image_urls = image_urls.take 3) ∧
    (∀ u1 u2 u3 u4 : String, create_ballzy_ad_fetch_urls [u1, u2, u3, u4] = [u1, u2, u3]) ∧
    (∀ item : Item, (extract_image_urls item).length ≤ 3) ∧
    (∀ (config : CountryConfig) (item : Item) (r : ProductRecord),
      process_feed_item config item = Except.ok (some r) →
      1 ≤ r.image_urls_for_ad.length ∧ r.image_urls_for_ad.length ≤ 3) := by
  refine ⟨create_ballzy_ad_fetch_urls_eq_take, fun u1 u2 u3 u4 => rfl,
          extract_image_urls_length_le, ?_⟩
  intro config item r h
  rcases process_feed_item_ok_some h with ⟨_, _, _, hcase⟩
  have hfacts : extract_image_urls item ≠ [] ∧
      r.image_urls_for_ad = (extract_image_urls item).take 3 := by
    rcases hcase with ⟨_, _, hrest⟩ | ⟨_, _, _, hrest⟩
    · exact ⟨(process_feed_item_rest_ok_some hrest).1,
             (process_feed_item_rest_ok_some hrest).2.2.2.2.1⟩
    · exact ⟨(process_feed_item_rest_ok_some hrest).1,
             (process_feed_item_rest_ok_some hrest).2.2.2.2.1⟩
  rw [hfacts.2, List.length_take]
  have hpos : 0 < (extract_image_urls item).length := List.length_pos.mpr hfacts.1
  exact ⟨Nat.le_min.mpr ⟨by omega, hpos⟩, Nat.min_le_left _ _⟩

theorem pair_eq_of_nodup_keys {α β : Type} :
    ∀ (l : List (α × β)) (p q : α × β),
      (l.map Prod.fst).Nodup → p ∈ l → q ∈ l → p.1 = q.1 → p = q := by
  intro l
  induction l with
  | nil => intro p q _ hp; exact absurd hp (by simp)
  | cons a t ih =>
    intro p q hnd hp hq hfst
    rw [List.map_cons, List.nodup_cons] at hnd
    rcases List.mem_cons.mp hp with hp1 | hp1 <;> rcases List.mem_cons.mp hq with hq1 | hq1
    · rw [hp1, hq1]
    · subst hp1
      exact absurd (hfst ▸ List.mem_map_of_mem Prod.fst hq1) hnd.1
    · subst hq1
      exact absurd (hfst ▸ List.mem_map_of_mem Prod.fst hp1) hnd.1
    · exact ih p q hnd.2 hp1 hq1 hfst

/-- C8: a market whose feed download raises is absent from downloaded_files,
so process_single_feed is never invoked for it (zero output files); the
exception is caught inside download_feed_xml and never propagates; and every
other configured market with a successful download is still processed. -/
theorem c8_failed_download_is_isolated :
    (∀ (markets : List (String × FetchOutcome)) (code msg : String),
      (code, FetchOutcome.requestException msg) ∈ markets →
      (markets.map Prod.fst).Nodup →
      code ∉ processed_codes markets) ∧
    (∀ (markets : List (String × FetchOutcome)) (code content : String),
      (code, FetchOutcome.success content) ∈ markets →
      code ∈ processed_codes markets) ∧
    (∀ code msg : String,
      download_feed_xml code (FetchOutcome.requestException msg) = none) := by
  refine ⟨?_, ?_, fun code msg => rfl⟩
  · intro markets code msg hmem hnd hproc
    unfold processed_codes at hproc
    rcases List.mem_map.mp hproc with ⟨m, hmfil, hmfst⟩
    have hmmem := List.mem_filter.mp hmfil
    have hcontains : code ∈ downloaded_codes markets := by
      have := hmmem.2
      rw [hmfst] at this
      exact List.mem_of_elem_eq_true this
    unfold downloaded_codes at hcontains
    rcases List.mem_filterMap.mp hcontains with ⟨m2, hm2mem, hm2eq⟩
    rcases hdl : download_feed_xml m2.1 m2.2 with _ | path
    · rw [hdl] at hm2eq
      exact absurd hm2eq (by simp)
    · rw [hdl] at hm2eq
      simp only [Option.map_some', Option.some.injEq] at hm2eq
      have : m2 = (code, FetchOutcome.requestException msg) :=
        pair_eq_of_nodup_keys markets m2 (code, FetchOutcome.requestException msg)
          hnd hm2mem hmem hm2eq
      rw [this] at hdl
      exact absurd hdl (by simp [download_feed_xml])
  · intro markets code content hmem
    unfold processed_codes
    have hdown : code ∈ downloaded_codes markets := by
      unfold downloaded_codes
      exact List.mem_filterMap.mpr
        ⟨(code, FetchOutcome.success content), hmem, by simp [download_feed_xml]⟩
    refine List.mem_map.mpr ⟨(code, FetchOutcome.success content), ?_, rfl⟩
    exact List.mem_filter.mpr ⟨hmem, List.elem_eq_true_of_mem hdown⟩

theorem filter_image_link_of_removed (l : List Element) :
    (l.filter (fun n => n.tag != gTag "image_link")).filter
      (fun n => n.tag == gTag "image_link") = [] := by
  induction l with
  | nil => rfl
  | cons a t ih =>
    by_cases ha : (a.tag == gTag "image_link") = true
    · simp [List.filter_cons, bne, ha, ih]
    · simp [List.filter_cons, bne, ha, ih]

/-- C9: each emitted Meta-feed item keeps every stored field node of the
source item except the namespaced image_link nodes, which are all removed;
the only image-link node in the output is the single appended one whose
text joins the configured base URL with the deterministic filename
ad_<id>.jpg; and nothing else is added. -/
theorem c9_meta_feed_image_link_replacement :
    ∀ r : ProductRecord,
      (generate_meta_feed_item r).filter (fun n => n.tag == gTag "image_link") =
        [meta_image_link_node r] ∧
      (meta_image_link_node r).text =
        some (GITHUB_PAGES_BASE_URL ++ "/" ++ ad_filename r.id) ∧
      (∀ n ∈ r.nodes, n.tag ≠ gTag "image_link" → n ∈ generate_meta_feed_item r) ∧
      (∀ n ∈ generate_meta_feed_item r, n ∈ r.nodes ∨ n = meta_image_link_node r) := by
  intro r
  refine ⟨?_, rfl, ?_, ?_⟩
  · unfold generate_meta_feed_item
    rw [List.filter_append, filter_image_link_of_removed]
    simp [meta_image_link_node]
  · intro n hn hne
    unfold generate_meta_feed_item
    exact List.mem_append_left _ (List.mem_filter.mpr ⟨hn, by simp [bne, hne]⟩)
  · intro n hn
    unfold generate_meta_feed_item at hn
    rcases List.mem_append.mp hn with h1 | h2
    · exact Or.inl (List.mem_filter.mp h1).1
    · exact Or.inr (by simpa using h2)

/-- C10: the price classification looks only at element presence, never at
text: an accepted item whose sale_price element exists with no text is in
state "sale" with a blank displayed price even when a valid price element
exists; while a price element whose text is blank or whitespace-only makes
the formatter's split-and-subscript raise IndexError, and an item that
reaches the formatter in that state turns the whole loop result into that
exception rather than skipping the record. -/
theorem c10_presence_classification_and_blank_crash :
    (∀ (config : CountryConfig) (item : Item) (r : ProductRecord) (e : Element),
      process_feed_item config item = Except.ok (some r) →
      item.find (gTag "sale_price") = some e → e.text = none →
      r.price_state = "sale" ∧ r.displayed_price = "") ∧
    (∀ (config : CountryConfig) (tag s : String), pySplit s = [] →
      format_price config (some ⟨tag, some s⟩) = Except.error PyExn.indexError) ∧
    (∀ (config : CountryConfig) (item : Item) (rest : List Item) (e : PyExn),
      process_feed_item config item = Except.error e →
      process_items config (item :: rest) 0 = Except.error e) := by
  refine ⟨?_, ?_, ?_⟩
  · intro config item r e h hse htext
    rcases process_feed_item_ok_some h with ⟨_, _, _, hcase⟩
    rcases hcase with ⟨se, hse2, hrest⟩ | ⟨hnone, _⟩
    · have hes : se = e := Option.some.inj (hse2.symm.trans hse)
      rcases process_feed_item_rest_ok_some hrest with ⟨_, _, hstate, _, _, hfd, _, _⟩
      refine ⟨hstate, ?_⟩
      rw [hes] at hfd
      have hblank : format_price config (some e) = Except.ok "" := by
        simp [format_price, htext]
      exact (Except.ok.inj (hblank.symm.trans hfd)).symm
    · rw [hnone] at hse
      exact absurd hse (by simp)
  · intro config tag s hs
    simp [format_price, hs]
  · intro config item rest e h
    simp [process_items, MAX_PRODUCTS_TO_GENERATE, h]

/-! ## Witnesses instantiating the hypotheses at concrete feed data -/

/-- Witness for c4_sale_display_and_color at a concrete accepted item with
both prices present. -/
theorem c4_sale_display_and_color_witness :
    sampleSaleRecord.displayed_price = sampleSaleRecord.formatted_sale_price ∧
    sampleSaleRecord.price_state = "sale" ∧
    sampleSaleRecord.price_color = SALE_PRICE_COLOR :=
  (c4_sale_display_and_color EE_CONFIG sampleSaleItem sampleSaleRecord (by decide)).1
    (by decide) (by decide)

/-- Witness for c5_record_invariants: the accepted sample item satisfies
every invariant, and a concrete item without an id is skipped. -/
theorem c5_record_invariants_witness :
    ((∃ e t, sampleSaleItem.find (gTag "id") = some e ∧ e.text = some t) ∧
     ((sampleSaleItem.find (gTag "sale_price")).isSome ∨
      (sampleSaleItem.find (gTag "price")).isSome) ∧
     extract_image_urls sampleSaleItem ≠ [] ∧
     is_correct_category sampleSaleItem = true ∧
     is_lifestyle sampleSaleItem = true) ∧
    process_feed_item EE_CONFIG sampleNoIdItem = Except.ok none :=
  ⟨c5_record_invariants.1 EE_CONFIG sampleSaleItem sampleSaleRecord (by decide),
   c5_record_invariants.2 EE_CONFIG sampleNoIdItem (by decide)⟩

/-- Witness for c6_cap_counts_accepted_in_order at a concrete two-item feed
whose second item is rejected. -/
theorem c6_cap_counts_accepted_in_order_witness :
    ([sampleSaleRecord] : List ProductRecord) =
      (([sampleSaleItem, sampleNoIdItem].filterMap
          (accepted_record EE_CONFIG)).take MAX_PRODUCTS_TO_GENERATE) ∧
    ([sampleSaleRecord] : List ProductRecord).length ≤ MAX_PRODUCTS_TO_GENERATE :=
  c6_cap_counts_accepted_in_order EE_CONFIG [sampleSaleItem, sampleNoIdItem]
    [sampleSaleRecord] (by decide)

/-- Witness for c7_three_slot_render_bound: four concrete URLs yield exactly
the first three, and the concrete accepted record carries three URLs. -/
theorem c7_three_slot_render_bound_witness :
    create_ballzy_ad_fetch_urls ["u1", "u2", "u3", "u4"] = ["u1", "u2", "u3"] ∧
    (1 ≤ sampleSaleRecord.image_urls_for_ad.length ∧
     sampleSaleRecord.image_urls_for_ad.length ≤ 3) :=
  ⟨c7_three_slot_render_bound.2.1 "u1" "u2" "u3" "u4",
   c7_three_slot_render_bound.2.2.2 EE_CONFIG sampleSaleItem sampleSaleRecord (by decide)⟩

/-- Witness for c8_failed_download_is_isolated on a concrete three-market
run whose middle market fails to download. -/
theorem c8_failed_download_is_isolated_witness :
    "LV" ∉ processed_codes
      [("EE", FetchOutcome.success "a"), ("LV", FetchOutcome.requestException "timeout"),
       ("LT", FetchOutcome.success "b")] ∧
    "EE" ∈ processed_codes
      [("EE", FetchOutcome.success "a"), ("LV", FetchOutcome.requestException "timeout"),
       ("LT", FetchOutcome.success "b")] ∧
    "LT" ∈ processed_codes
      [("EE", FetchOutcome.success "a"), ("LV", FetchOutcome.requestException "timeout"),
       ("LT", FetchOutcome.success "b")] :=
  ⟨c8_failed_download_is_isolated.1 _ "LV" "timeout" (by decide) (by decide),
   c8_failed_download_is_isolated.2.1 _ "EE" "a" (by decide),
   c8_failed_download_is_isolated.2.1 _ "LT" "b" (by decide)⟩

/-- Witness for c9_meta_feed_image_link_replacement: a kept node of the
concrete record appears in the emitted item, and each emitted node is a
stored node or the new image link. -/
theorem c9_meta_feed_image_link_replacement_witness :
    (⟨gTag "title", some "Nike Air"⟩ : Element) ∈ generate_meta_feed_item sampleSaleRecord ∧
    ((⟨gTag "title", some "Nike Air"⟩ : Element) ∈ sampleSaleRecord.nodes ∨
      (⟨gTag "title", some "Nike Air"⟩ : Element) = meta_image_link_node sampleSaleRecord) :=
  ⟨(c9_meta_feed_image_link_replacement sampleSaleRecord).2.2.1
      ⟨gTag "title", some "Nike Air"⟩ (by decide) (by decide),
   (c9_meta_feed_image_link_replacement sampleSaleRecord).2.2.2
      ⟨gTag "title", some "Nike Air"⟩ (by decide)⟩

/-- Witness for c10_presence_classification_and_blank_crash: a concrete
accepted item with a text-less sale_price element, a concrete whitespace
price text, and a concrete feed aborted by the IndexError. -/
theorem c10_presence_classification_and_blank_crash_witness :
    (sampleNoneSaleRecord.price_state = "sale" ∧
     sampleNoneSaleRecord.displayed_price = "") ∧
    format_price EE_CONFIG (some ⟨gTag "price", some " "⟩) =
      Except.error PyExn.indexError ∧
    process_items EE_CONFIG [sampleBlankPriceItem] 0 = Except.error PyExn.indexError :=
  ⟨c10_presence_classification_and_blank_crash.1 EE_CONFIG sampleNoneSaleItem
      sampleNoneSaleRecord ⟨gTag "sale_price", none⟩ (by decide) (by decide) rfl,
   c10_presence_classification_and_blank_crash.2.1 EE_CONFIG (gTag "price") " " (by decide),
   c10_presence_classification_and_blank_crash.2.2 EE_CONFIG sampleBlankPriceItem []
      PyExn.indexError (by decide)⟩
